import Mathlib

/-!
Token classification model of the Hazel / Adorad front end.

Shallow embedding of `Hazel/Compiler/Tokens/Tokens.h`: the `TokenType` enumeration generated by
the `ALLTOKENS` table, the integer value every enumerator receives, and the static predicates
of class `Token`.  Enumerators are compared in C++ through their underlying integer value, so
the range predicates are written over `TokenType.val`.
-/

namespace Hazel

/-- Enumerators of `TokenType`, in the order in which `ALLTOKENS` declares them. -/
inductive TokenType where
  | TOK_ID
  | TOK_EOF
  | TOK_NULL
  | ILLEGAL
  | COMMENT
  | TOK___LITERALS_BEGIN
  | IDENTIFIER
  | INTEGER
  | BIN_INT
  | HEX_INT
  | INT8_LIT
  | INT16_LIT
  | INT32_LIT
  | INT64_LIT
  | UINT_LIT
  | UINT8_LIT
  | UINT16_LIT
  | UINT32_LIT
  | UINT64_LIT
  | FLOAT
  | FLOAT32_LIT
  | FLOAT64_LIT
  | FLOAT128_LIT
  | IMAG
  | RUNE
  | STRING
  | RAW_STRING
  | TRIPLE_STRING
  | TRUE
  | FALSE
  | TOK___LITERALS_END
  | TOK___OPERATORS_BEGIN
  | PLUS
  | MINUS
  | MULT
  | SLASH
  | MOD
  | MOD_MOD
  | PLUS_PLUS
  | MINUS_MINUS
  | MULT_MULT
  | SLASH_SLASH
  | AT_SIGN
  | HASH_SIGN
  | QUESTION
  | TOK___COMP_OPERATORS_BEGIN
  | GREATER_THAN
  | LESS_THAN
  | GREATER_THAN_OR_EQUAL_TO
  | LESS_THAN_OR_EQUAL_TO
  | EQUALS_EQUALS
  | EXCLAMATION_EQUALS
  | TOK___COMP_OPERATORS_END
  | TOK___ASSIGNMENT_OPERATORS_BEGIN
  | EQUALS
  | PLUS_EQUALS
  | MINUS_EQUALS
  | MULT_EQUALS
  | SLASH_EQUALS
  | MOD_EQUALS
  | AND_EQUALS
  | OR_EQUALS
  | XOR_EQUALS
  | LBITSHIFT_EQUALS
  | RBITSHIFT_EQUALS
  | TILDA
  | TILDA_EQUALS
  | TOK___ASSIGNMENT_OPERATORS_END
  | TOK___ARROW_OPERATORS_BEGIN
  | EQUALS_ARROW
  | RARROW
  | LARROW
  | TOK___ARROW_OPERATORS_END
  | TOK___DELIMITERS_OPERATORS_BEGIN
  | LSQUAREBRACK
  | RSQUAREBRACK
  | LBRACE
  | RBRACE
  | LPAREN
  | RPAREN
  | TOK___DELIMITERS_OPERATORS_END
  | TOK___BITWISE_OPERATORS_BEGIN
  | LBITSHIFT
  | RBITSHIFT
  | AND
  | OR
  | EXCLAMATION
  | XOR
  | AND_NOT
  | AND_AND
  | OR_OR
  | TOK___BITWISE_OPERATORS_END
  | TOK___OPERATORS_END
  | TOK___SEPARATORS_BEGIN
  | COLON
  | SEMICOLON
  | COMMA
  | DOT
  | DDOT
  | ELLIPSIS
  | BACKSLASH
  | TOK___SEPARATORS_END
  | TOK___KEYWORDS_BEGIN
  | ANY
  | AS
  | BEGIN
  | BREAK
  | CASE
  | CAST
  | CATCH
  | CLASS
  | CONST
  | CONTINUE
  | DO
  | DECL
  | DEFAULT
  | ENUM
  | ELSE
  | ELSEIF
  | EXCEPT
  | EXPORT
  | EXTERN
  | FINALLY
  | FOR
  | FROM
  | FUNC
  | IF
  | IMPORT
  | IN
  | INCLUDE
  | INLINE
  | ISA
  | MACRO
  | MAP
  | MATCH
  | MIXIN
  | MODULE
  | MUTABLE
  | NO_INLINE
  | NOT
  | NOT_IN
  | RAISE
  | RANGE
  | RETURN
  | STRUCT
  | TRY
  | TUPLE
  | TYPE
  | TYPEOF
  | USE
  | WHEN
  | WHERE
  | WHILE
  | UNION
  | TOK___KEYWORDS_END
  | TOK_COUNT
  deriving DecidableEq, Repr

namespace TokenType

/-- Underlying integer value of an enumerator: `TOK_ID = 0`, every later enumerator is one more
than its predecessor in `ALLTOKENS`. -/
def val : TokenType → Nat
  | TOK_ID => 0
  | TOK_EOF => 1
  | TOK_NULL => 2
  | ILLEGAL => 3
  | COMMENT => 4
  | TOK___LITERALS_BEGIN => 5
  | IDENTIFIER => 6
  | INTEGER => 7
  | BIN_INT => 8
  | HEX_INT => 9
  | INT8_LIT => 10
  | INT16_LIT => 11
  | INT32_LIT => 12
  | INT64_LIT => 13
  | UINT_LIT => 14
  | UINT8_LIT => 15
  | UINT16_LIT => 16
  | UINT32_LIT => 17
  | UINT64_LIT => 18
  | FLOAT => 19
  | FLOAT32_LIT => 20
  | FLOAT64_LIT => 21
  | FLOAT128_LIT => 22
  | IMAG => 23
  | RUNE => 24
  | STRING => 25
  | RAW_STRING => 26
  | TRIPLE_STRING => 27
  | TRUE => 28
  | FALSE => 29
  | TOK___LITERALS_END => 30
  | TOK___OPERATORS_BEGIN => 31
  | PLUS => 32
  | MINUS => 33
  | MULT => 34
  | SLASH => 35
  | MOD => 36
  | MOD_MOD => 37
  | PLUS_PLUS => 38
  | MINUS_MINUS => 39
  | MULT_MULT => 40
  | SLASH_SLASH => 41
  | AT_SIGN => 42
  | HASH_SIGN => 43
  | QUESTION => 44
  | TOK___COMP_OPERATORS_BEGIN => 45
  | GREATER_THAN => 46
  | LESS_THAN => 47
  | GREATER_THAN_OR_EQUAL_TO => 48
  | LESS_THAN_OR_EQUAL_TO => 49
  | EQUALS_EQUALS => 50
  | EXCLAMATION_EQUALS => 51
  | TOK___COMP_OPERATORS_END => 52
  | TOK___ASSIGNMENT_OPERATORS_BEGIN => 53
  | EQUALS => 54
  | PLUS_EQUALS => 55
  | MINUS_EQUALS => 56
  | MULT_EQUALS => 57
  | SLASH_EQUALS => 58
  | MOD_EQUALS => 59
  | AND_EQUALS => 60
  | OR_EQUALS => 61
  | XOR_EQUALS => 62
  | LBITSHIFT_EQUALS => 63
  | RBITSHIFT_EQUALS => 64
  | TILDA => 65
  | TILDA_EQUALS => 66
  | TOK___ASSIGNMENT_OPERATORS_END => 67
  | TOK___ARROW_OPERATORS_BEGIN => 68
  | EQUALS_ARROW => 69
  | RARROW => 70
  | LARROW => 71
  | TOK___ARROW_OPERATORS_END => 72
  | TOK___DELIMITERS_OPERATORS_BEGIN => 73
  | LSQUAREBRACK => 74
  | RSQUAREBRACK => 75
  | LBRACE => 76
  | RBRACE => 77
  | LPAREN => 78
  | RPAREN => 79
  | TOK___DELIMITERS_OPERATORS_END => 80
  | TOK___BITWISE_OPERATORS_BEGIN => 81
  | LBITSHIFT => 82
  | RBITSHIFT => 83
  | AND => 84
  | OR => 85
  | EXCLAMATION => 86
  | XOR => 87
  | AND_NOT => 88
  | AND_AND => 89
  | OR_OR => 90
  | TOK___BITWISE_OPERATORS_END => 91
  | TOK___OPERATORS_END => 92
  | TOK___SEPARATORS_BEGIN => 93
  | COLON => 94
  | SEMICOLON => 95
  | COMMA => 96
  | DOT => 97
  | DDOT => 98
  | ELLIPSIS => 99
  | BACKSLASH => 100
  | TOK___SEPARATORS_END => 101
  | TOK___KEYWORDS_BEGIN => 102
  | ANY => 103
  | AS => 104
  | BEGIN => 105
  | BREAK => 106
  | CASE => 107
  | CAST => 108
  | CATCH => 109
  | CLASS => 110
  | CONST => 111
  | CONTINUE => 112
  | DO => 113
  | DECL => 114
  | DEFAULT => 115
  | ENUM => 116
  | ELSE => 117
  | ELSEIF => 118
  | EXCEPT => 119
  | EXPORT => 120
  | EXTERN => 121
  | FINALLY => 122
  | FOR => 123
  | FROM => 124
  | FUNC => 125
  | IF => 126
  | IMPORT => 127
  | IN => 128
  | INCLUDE => 129
  | INLINE => 130
  | ISA => 131
  | MACRO => 132
  | MAP => 133
  | MATCH => 134
  | MIXIN => 135
  | MODULE => 136
  | MUTABLE => 137
  | NO_INLINE => 138
  | NOT => 139
  | NOT_IN => 140
  | RAISE => 141
  | RANGE => 142
  | RETURN => 143
  | STRUCT => 144
  | TRY => 145
  | TUPLE => 146
  | TYPE => 147
  | TYPEOF => 148
  | USE => 149
  | WHEN => 150
  | WHERE => 151
  | WHILE => 152
  | UNION => 153
  | TOK___KEYWORDS_END => 154
  | TOK_COUNT => 155

end TokenType

open TokenType

/-- The `ALLTOKENS` table: each enumerator paired with the string of its `TOKENKIND` entry. -/
def ALLTOKENS : List (TokenType × String) :=
  [(TOK_ID, "TOK_ID"),
   (TOK_EOF, "TOK_EOF"),
   (TOK_NULL, "TOK_NULL"),
   (ILLEGAL, "ILLEGAL"),
   (COMMENT, "COMMENT"),
   (TOK___LITERALS_BEGIN, ""),
   (IDENTIFIER, "IDENTIFIER"),
   (INTEGER, "INTEGER"),
   (BIN_INT, "BIN_INT"),
   (HEX_INT, "HEX_INT"),
   (INT8_LIT, "INT8_LIT"),
   (INT16_LIT, "INT16_LIT"),
   (INT32_LIT, "INT32_LIT"),
   (INT64_LIT, "INT64_LIT"),
   (UINT_LIT, "UINT_LIT"),
   (UINT8_LIT, "UINT8_LIT"),
   (UINT16_LIT, "UINT16_LIT"),
   (UINT32_LIT, "UINT32_LIT"),
   (UINT64_LIT, "UINT64_LIT"),
   (FLOAT, "FLOAT"),
   (FLOAT32_LIT, "FLOAT32_LIT"),
   (FLOAT64_LIT, "FLOAT64_LIT"),
   (FLOAT128_LIT, "FLOAT128_LIT"),
   (IMAG, "IMAG"),
   (RUNE, "RUNE"),
   (STRING, "STRING"),
   (RAW_STRING, "RAW_STRING"),
   (TRIPLE_STRING, "TRIPLE_STRING"),
   (TRUE, "TRUE"),
   (FALSE, "FALSE"),
   (TOK___LITERALS_END, ""),
   (TOK___OPERATORS_BEGIN, ""),
   (PLUS, "+"),
   (MINUS, "-"),
   (MULT, "*"),
   (SLASH, "/"),
   (MOD, "%"),
   (MOD_MOD, "%%"),
   (PLUS_PLUS, "++"),
   (MINUS_MINUS, "--"),
   (MULT_MULT, "**"),
   (SLASH_SLASH, "//"),
   (AT_SIGN, "@"),
   (HASH_SIGN, "#"),
   (QUESTION, "?"),
   (TOK___COMP_OPERATORS_BEGIN, ""),
   (GREATER_THAN, ">"),
   (LESS_THAN, "<"),
   (GREATER_THAN_OR_EQUAL_TO, ">="),
   (LESS_THAN_OR_EQUAL_TO, "<="),
   (EQUALS_EQUALS, "=="),
   (EXCLAMATION_EQUALS, "!="),
   (TOK___COMP_OPERATORS_END, ""),
   (TOK___ASSIGNMENT_OPERATORS_BEGIN, ""),
   (EQUALS, "="),
   (PLUS_EQUALS, "+="),
   (MINUS_EQUALS, "-="),
   (MULT_EQUALS, "*="),
   (SLASH_EQUALS, "/="),
   (MOD_EQUALS, "%="),
   (AND_EQUALS, "&="),
   (OR_EQUALS, "|="),
   (XOR_EQUALS, "^="),
   (LBITSHIFT_EQUALS, "<<="),
   (RBITSHIFT_EQUALS, ">>="),
   (TILDA, "~"),
   (TILDA_EQUALS, "~="),
   (TOK___ASSIGNMENT_OPERATORS_END, ""),
   (TOK___ARROW_OPERATORS_BEGIN, ""),
   (EQUALS_ARROW, "=>"),
   (RARROW, "->"),
   (LARROW, "<-"),
   (TOK___ARROW_OPERATORS_END, ""),
   (TOK___DELIMITERS_OPERATORS_BEGIN, ""),
   (LSQUAREBRACK, "["),
   (RSQUAREBRACK, "]"),
   (LBRACE, "\x7b"),
   (RBRACE, "\x7d"),
   (LPAREN, "("),
   (RPAREN, ")"),
   (TOK___DELIMITERS_OPERATORS_END, ""),
   (TOK___BITWISE_OPERATORS_BEGIN, ""),
   (LBITSHIFT, "<<"),
   (RBITSHIFT, ">>"),
   (AND, "&"),
   (OR, "|"),
   (EXCLAMATION, "!"),
   (XOR, "^"),
   (AND_NOT, "&^"),
   (AND_AND, "&&"),
   (OR_OR, "||"),
   (TOK___BITWISE_OPERATORS_END, ""),
   (TOK___OPERATORS_END, ""),
   (TOK___SEPARATORS_BEGIN, ""),
   (COLON, ":"),
   (SEMICOLON, ";"),
   (COMMA, ","),
   (DOT, "."),
   (DDOT, ".."),
   (ELLIPSIS, "..."),
   (BACKSLASH, "\\"),
   (TOK___SEPARATORS_END, ""),
   (TOK___KEYWORDS_BEGIN, ""),
   (ANY, "any"),
   (AS, "as"),
   (BEGIN, "begin"),
   (BREAK, "break"),
   (CASE, "case"),
   (CAST, "cast"),
   (CATCH, "catch"),
   (CLASS, "class"),
   (CONST, "const"),
   (CONTINUE, "continue"),
   (DO, "do"),
   (DECL, "decl"),
   (DEFAULT, "default"),
   (ENUM, "enum"),
   (ELSE, "else"),
   (ELSEIF, "elseif"),
   (EXCEPT, "except"),
   (EXPORT, "export"),
   (EXTERN, "extern"),
   (FINALLY, "finally"),
   (FOR, "for"),
   (FROM, "from"),
   (FUNC, "func"),
   (IF, "if"),
   (IMPORT, "import"),
   (IN, "in"),
   (INCLUDE, "include"),
   (INLINE, "inline"),
   (ISA, "isa"),
   (MACRO, "macro"),
   (MAP, "map"),
   (MATCH, "match"),
   (MIXIN, "mixin"),
   (MODULE, "module"),
   (MUTABLE, "mutable"),
   (NO_INLINE, "noinline"),
   (NOT, "not"),
   (NOT_IN, "notin"),
   (RAISE, "raise"),
   (RANGE, "range"),
   (RETURN, "return"),
   (STRUCT, "struct"),
   (TRY, "try"),
   (TUPLE, "tuple"),
   (TYPE, "type"),
   (TYPEOF, "typeof"),
   (USE, "use"),
   (WHEN, "when"),
   (WHERE, "where"),
   (WHILE, "while"),
   (UNION, "union"),
   (TOK___KEYWORDS_END, ""),
   (TOK_COUNT, "")]

namespace Token

/-- Source: `Token::isJumpStatement`. -/
def isJumpStatement (token : TokenType) : Bool :=
  token == BREAK || token == CONTINUE || token == RETURN

/-- Source: `Token::isLoopStatement`. -/
def isLoopStatement (token : TokenType) : Bool :=
  token == WHILE || token == FOR

/-- Source: `Token::isFlowStatement`. -/
def isFlowStatement (token : TokenType) : Bool :=
  token == IF || token == MATCH

/-- Source: `Token::isMatchStatement`. -/
def isMatchStatement (token : TokenType) : Bool :=
  token == MATCH || token == CASE || token == DEFAULT

/-- Source: `Token::isNULL`. -/
def isNULL (token : TokenType) : Bool :=
  token == TOK_NULL

/-- Source: `Token::isPrimaryExpressionStatement`. -/
def isPrimaryExpressionStatement (token : TokenType) : Bool :=
  token == INTEGER || token == BIN_INT || token == HEX_INT || token == IMAG ||
  token == FLOAT || token == RUNE || token == STRING || token == IDENTIFIER ||
  token == TOK_NULL || token == FUNC || token == ILLEGAL || token == LPAREN ||
  token == RPAREN

/-- Source: `Token::isExpressionStatement`.  The first disjunct compares the `bool` result of
`isPrimaryExpressionStatement`, promoted to an integer (0 or 1), with the enumerator `ANY`. -/
def isExpressionStatement (token : TokenType) : Bool :=
  (isPrimaryExpressionStatement token).toNat == ANY.val || token == MODULE ||
  token == PLUS || token == MINUS || token == EXCLAMATION || token == NOT || token == RAISE

/-- Source: `Token::isDeclStatement`. -/
def isDeclStatement (token : TokenType) : Bool :=
  token == ANY || token == FUNC || token == CLASS || token == STRUCT ||
  token == ENUM || token == MODULE || token == SEMICOLON

/-- Source: `Token::isSpecial`. -/
def isSpecial (token : TokenType) : Bool :=
  token == TOK_ID || token == TOK_EOF || token == ILLEGAL || token == COMMENT

/-- Source: `Token::isLiteral`. -/
def isLiteral (token : TokenType) : Bool :=
  token.val > TOK___LITERALS_BEGIN.val && token.val < TOK___LITERALS_END.val

/-- Source: `Token::isKeyword`. -/
def isKeyword (token : TokenType) : Bool :=
  token.val > TOK___KEYWORDS_BEGIN.val && token.val < TOK___KEYWORDS_END.val

/-- Source: `Token::isOperator`. -/
def isOperator (token : TokenType) : Bool :=
  token.val > TOK___OPERATORS_BEGIN.val && token.val < TOK___OPERATORS_END.val

/-- Source: `Token::isComparisonOperator`. -/
def isComparisonOperator (token : TokenType) : Bool :=
  token.val > TOK___COMP_OPERATORS_BEGIN.val && token.val < TOK___COMP_OPERATORS_END.val

/-- Source: `Token::isAssignmentOperator`. -/
def isAssignmentOperator (token : TokenType) : Bool :=
  token.val > TOK___ASSIGNMENT_OPERATORS_BEGIN.val &&
    token.val < TOK___ASSIGNMENT_OPERATORS_END.val

/-- Source: `Token::isDelimiter`. -/
def isDelimiter (token : TokenType) : Bool :=
  token.val > TOK___DELIMITERS_OPERATORS_BEGIN.val &&
    token.val < TOK___DELIMITERS_OPERATORS_END.val

/-- Source: `Token::isArrow`. -/
def isArrow (token : TokenType) : Bool :=
  token.val > TOK___ARROW_OPERATORS_BEGIN.val && token.val < TOK___ARROW_OPERATORS_END.val

/-- Source: `Token::isBitwise`. -/
def isBitwise (token : TokenType) : Bool :=
  token.val > TOK___BITWISE_OPERATORS_BEGIN.val && token.val < TOK___BITWISE_OPERATORS_END.val

/-- Source: `Token::isSeparator`. -/
def isSeparator (token : TokenType) : Bool :=
  token.val > TOK___SEPARATORS_BEGIN.val && token.val < TOK___SEPARATORS_END.val

end Token

open Token

/-- Data members of class `Token` (`Tokens.h`); the `UInt32` members are held as naturals, no
arithmetic is performed on them. -/
structure Token where
  type : TokenType
  offset : Nat
  tok_bytes : Nat
  line_no : Nat
  col_no : Nat
  tok_length : Nat
  fname : String
  value : String
  deriving DecidableEq, Repr

/-- Outcome of calling a member function of `Token` that is declared to return a `Token`.
`returned` is a completed call, with the returned value and the receiver and the argument
object after the call.  `flowsOffEnd` is control reaching the closing brace of the body
without a `return` statement, which is undefined behaviour in C++ and gives the caller no
completed call; it records the two objects as the body's assignments left them. -/
inductive MemberOutcome where
  | returned (value : Token) (self other : Token)
  | flowsOffEnd (self other : Token)
  deriving DecidableEq, Repr

namespace Token

/-- Source: the default constructor `Token::Token()`. -/
def new : Token :=
  { type := TOK_NULL, offset := 0, tok_bytes := 0, line_no := 0, col_no := 0,
    tok_length := 0, fname := "", value := "" }

/-- Source: `Token::clone`, called as `self.clone(&other)`: each of the eight members of
`*this` is assigned from `*other`, which is only read.  The function is declared to return
a `Token` and its body ends after the last assignment without a `return` statement, so
control flows off the end of a value-returning function and the call has undefined
behaviour: the outcome is `flowsOffEnd`, never `returned`. -/
def clone (self other : Token) : MemberOutcome :=
  let self := { self with type := other.type }
  let self := { self with offset := other.offset }
  let self := { self with tok_bytes := other.tok_bytes }
  let self := { self with line_no := other.line_no }
  let self := { self with col_no := other.col_no }
  let self := { self with tok_length := other.tok_length }
  let self := { self with fname := other.fname }
  let self := { self with value := other.value }
  .flowsOffEnd self other

/-- Source: `Token::toString`, a `switch` over `this->type`; enumerators without a `case`
fall through to the final `return "ILLEGAL"`. -/
def toString (self : Token) : String :=
  match self.type with
  | TOK_EOF => "TOK_EOF"
  | TOK_NULL => "TOK_NULL"
  | ILLEGAL => "ILLEGAL"
  | COMMENT => "COMMENT"
  | IDENTIFIER => "IDENTIFIER"
  | INTEGER => "INTEGER"
  | BIN_INT => "BIN_INT"
  | HEX_INT => "HEX_INT"
  | INT8_LIT => "INT8_LIT"
  | INT16_LIT => "INT16_LIT"
  | INT32_LIT => "INT32_LIT"
  | INT64_LIT => "INT64_LIT"
  | UINT_LIT => "UINT_LIT"
  | UINT8_LIT => "UINT8_LIT"
  | UINT16_LIT => "UINT16_LIT"
  | UINT32_LIT => "UINT32_LIT"
  | UINT64_LIT => "UINT64_LIT"
  | FLOAT => "FLOAT"
  | FLOAT32_LIT => "FLOAT32_LIT"
  | FLOAT64_LIT => "FLOAT64_LIT"
  | FLOAT128_LIT => "FLOAT128_LIT"
  | IMAG => "IMAG"
  | RUNE => "RUNE"
  | STRING => "STRING"
  | RAW_STRING => "RAW_STRING"
  | TRIPLE_STRING => "TRIPLE_STRING"
  | TRUE => "TRUE"
  | FALSE => "FALSE"
  | PLUS => "+"
  | MINUS => "-"
  | MULT => "*"
  | SLASH => "/"
  | MOD => "%"
  | MOD_MOD => "%%"
  | PLUS_PLUS => "++"
  | MINUS_MINUS => "--"
  | AT_SIGN => "@"
  | HASH_SIGN => "#"
  | QUESTION => "?"
  | GREATER_THAN => ">"
  | LESS_THAN => "<"
  | GREATER_THAN_OR_EQUAL_TO => ">="
  | LESS_THAN_OR_EQUAL_TO => "<="
  | EQUALS_EQUALS => "=="
  | EXCLAMATION_EQUALS => "!="
  | EQUALS => "="
  | PLUS_EQUALS => "+="
  | MINUS_EQUALS => "-="
  | MULT_EQUALS => "*="
  | SLASH_EQUALS => "/="
  | MOD_EQUALS => "%="
  | AND_EQUALS => "&="
  | OR_EQUALS => "|="
  | XOR_EQUALS => "^="
  | LBITSHIFT_EQUALS => "<<="
  | RBITSHIFT_EQUALS => ">>="
  | TILDA => "~"
  | EQUALS_ARROW => "=>"
  | RARROW => "->"
  | LARROW => "<-"
  | LSQUAREBRACK => "["
  | RSQUAREBRACK => "]"
  | LBRACE => "\x7b"
  | RBRACE => "\x7d"
  | LPAREN => "("
  | RPAREN => ")"
  | LBITSHIFT => "<<"
  | RBITSHIFT => ">>"
  | AND => "&"
  | OR => "|"
  | EXCLAMATION => "!"
  | XOR => "^"
  | AND_NOT => "&^"
  | AND_AND => "&&"
  | OR_OR => "||"
  | COLON => ":"
  | SEMICOLON => ";"
  | COMMA => ":"
  | DOT => "."
  | DDOT => ".."
  | ELLIPSIS => "..."
  | BACKSLASH => "\\"
  | ANY => "any"
  | AS => "as"
  | BEGIN => "begin"
  | BREAK => "break"
  | CASE => "case"
  | CAST => "cast"
  | CATCH => "catch"
  | CLASS => "class"
  | CONST => "const"
  | CONTINUE => "continue"
  | DO => "do"
  | DECL => "decl"
  | DEFAULT => "default"
  | ENUM => "enum"
  | ELSE => "else"
  | ELSEIF => "elseif"
  | EXCEPT => "except"
  | EXPORT => "export"
  | EXTERN => "extern"
  | FINALLY => "finally"
  | FOR => "for"
  | FROM => "from"
  | FUNC => "func"
  | IF => "if"
  | IMPORT => "import"
  | IN => "in"
  | INCLUDE => "include"
  | INLINE => "inline"
  | ISA => "isa"
  | MACRO => "macro"
  | MAP => "map"
  | MATCH => "match"
  | MIXIN => "mixin"
  | MODULE => "module"
  | MUTABLE => "mutable"
  | NO_INLINE => "noinline"
  | NOT => "not"
  | NOT_IN => "notin"
  | RAISE => "raise"
  | RANGE => "range"
  | RETURN => "return"
  | STRUCT => "struct"
  | TRY => "try"
  | TUPLE => "tuple"
  | TYPE => "type"
  | TYPEOF => "typeof"
  | WHEN => "when"
  | WHERE => "where"
  | WHILE => "while"
  | UNION => "union"
  | _ => "ILLEGAL"

end Token

/-- A token of kind `k` with every other member as the default constructor leaves it. -/
def tokenOfKind (k : TokenType) : Token :=
  { Token.new with type := k }

/-- The string paired with `k` in the `ALLTOKENS` table (specification vocabulary: the
canonical surface spelling of `k`). -/
def canonicalSpelling (k : TokenType) : String :=
  match ALLTOKENS[k.val]? with
  | some entry => entry.2
  | none => ""

/-- Sentinel enumerators: the `TOK___*_BEGIN` and `TOK___*_END` constants of `ALLTOKENS`
(specification vocabulary; the source has no such predicate). -/
def isSentinel (k : TokenType) : Bool :=
  k == TOK___LITERALS_BEGIN || k == TOK___LITERALS_END ||
  k == TOK___OPERATORS_BEGIN || k == TOK___OPERATORS_END ||
  k == TOK___COMP_OPERATORS_BEGIN || k == TOK___COMP_OPERATORS_END ||
  k == TOK___ASSIGNMENT_OPERATORS_BEGIN || k == TOK___ASSIGNMENT_OPERATORS_END ||
  k == TOK___ARROW_OPERATORS_BEGIN || k == TOK___ARROW_OPERATORS_END ||
  k == TOK___DELIMITERS_OPERATORS_BEGIN || k == TOK___DELIMITERS_OPERATORS_END ||
  k == TOK___BITWISE_OPERATORS_BEGIN || k == TOK___BITWISE_OPERATORS_END ||
  k == TOK___SEPARATORS_BEGIN || k == TOK___SEPARATORS_END ||
  k == TOK___KEYWORDS_BEGIN || k == TOK___KEYWORDS_END

/-- Real kinds: every enumerator that is neither a sentinel nor `TOK_COUNT`
(specification vocabulary). -/
def isRealKind (k : TokenType) : Bool :=
  !isSentinel k && k != TOK_COUNT

/-- Number of the five top-level family predicates that hold of `k`. -/
def familyCount (k : TokenType) : Nat :=
  [isLiteral k, isOperator k, isSeparator k, isKeyword k, isSpecial k].count true

/-- Sentinels of the five sub-bands nested inside the operator band (specification
vocabulary). -/
def isNestedSentinel (k : TokenType) : Bool :=
  k == TOK___COMP_OPERATORS_BEGIN || k == TOK___COMP_OPERATORS_END ||
  k == TOK___ASSIGNMENT_OPERATORS_BEGIN || k == TOK___ASSIGNMENT_OPERATORS_END ||
  k == TOK___ARROW_OPERATORS_BEGIN || k == TOK___ARROW_OPERATORS_END ||
  k == TOK___DELIMITERS_OPERATORS_BEGIN || k == TOK___DELIMITERS_OPERATORS_END ||
  k == TOK___BITWISE_OPERATORS_BEGIN || k == TOK___BITWISE_OPERATORS_END

/-- Number of the five operator sub-band predicates that hold of `k`. -/
def subBandCount (k : TokenType) : Nat :=
  [isComparisonOperator k, isAssignmentOperator k, isArrow k, isDelimiter k,
    isBitwise k].count true

/-- The value of `k` lies strictly between the values of the sentinels `b` and `e`. -/
def strictlyBetween (b e k : TokenType) : Prop :=
  b.val < k.val ∧ k.val < e.val

/-- Edge behaviour of a band predicate `p` with sentinels `b`, `e`: false on both sentinels,
true on `first`, the enumerator declared right after `b`, and on `last`, the one declared
right before `e`. -/
def bandEdges (p : TokenType → Bool) (b e first last : TokenType) : Prop :=
  p b = false ∧ p e = false ∧ p first = true ∧ p last = true ∧
    first.val = b.val + 1 ∧ last.val + 1 = e.val

/-! ## Parser primitives (`adorad/compiler/parser.c`) -/

/-- Modelled from the spec: `adorad/compiler/tokens.h`, which declares the C record `Token`
and the enumeration `TokenKind` used by `parser.c`, is not among the sources.  The kind
enumeration is taken to be `TokenType` of `Tokens.h`, and the record to be `Token`. -/
abbrev TokenKind : Type := TokenType

/-- Modelled from the spec: the member `kind` that `parser.c` reads from a C `Token`; it is
the member that `Tokens.h` calls `type`. -/
def Token.kind (t : Token) : TokenKind :=
  t.type

/-- Modelled from the spec: `adorad/compiler/lexer.h` is not among the sources; `parser.c`
uses only the member `toklist`, a `Vec` of tokens, held here as a list. -/
structure Lexer where
  toklist : List Token
  deriving DecidableEq, Repr

/-- Modelled from the spec: `adorad/compiler/parser.h` is not among the sources; the members
are the four that `parser_init` assigns.  `curr_tok` is a C pointer into the storage of
`toklist` and is held as its offset from the first element; it indexes a token when it is
below the length of `toklist`. -/
structure Parser where
  lexer : Lexer
  toklist : List Token
  curr_tok : Nat
  tok_count : Nat
  deriving DecidableEq, Repr

/-- Modelled from the spec: the error codes passed to `adorad_panic` are declared outside the
sources; `parser.c` names `ErrorUnexpectedToken`, the other two kinds are those of the
specification's error taxonomy. -/
inductive Error where
  | ErrorUnexpectedToken
  | ErrorIllegalToken
  | ErrorPrematureEndOfInput
  deriving DecidableEq, Repr

/-- Result of running a parser primitive on a parser state.  `ok` is a normal return with the
returned value and the state after the call; `panic` is a call of `adorad_panic` followed by
`exit(1)`, with the error code, the formatted message and the state at that point;
`undefined` is a read through `curr_tok` when it does not index a token of `toklist`. -/
inductive Outcome (α : Type) where
  | ok (value : α) (parser : Parser)
  | panic (err : Error) (msg : String) (parser : Parser)
  | undefined
  deriving DecidableEq, Repr

/-- Source: `parser_init`. -/
def parser_init (lexer : Lexer) : Parser :=
  { lexer := lexer, toklist := lexer.toklist, curr_tok := 0,
    tok_count := lexer.toklist.length }

/-- Source: `parser_peek_token`, the read `parser->curr_tok->kind`. -/
def parser_peek_token (parser : Parser) : Outcome TokenKind :=
  match parser.toklist[parser.curr_tok]? with
  | some t => .ok t.kind parser
  | none => .undefined

/-- Source: `parser_chomp`. -/
def parser_chomp (parser : Parser) : Outcome TokenKind :=
  match parser_peek_token parser with
  | .ok tok parser => .ok tok { parser with curr_tok := parser.curr_tok + 1 }
  | .panic err msg parser => .panic err msg parser
  | .undefined => .undefined

/-- Source: `parser_chomp_if`.  The C function is declared to return `TokenKind` and returns
`-1` when the kinds differ, so the result is held as the integer value of the returned
`TokenKind` object: the value of the enumerator on a match, `-1` otherwise. -/
def parser_chomp_if (parser : Parser) (tokenkind : TokenKind) : Outcome Int :=
  match parser.toklist[parser.curr_tok]? with
  | some t =>
    if t.kind = tokenkind then
      match parser_chomp parser with
      | .ok tok parser => .ok (tok.val : Int) parser
      | .panic err msg parser => .panic err msg parser
      | .undefined => .undefined
    else
      .ok (-1) parser
  | none => .undefined

/-- Source: `parser_expect_token`.  `token_to_buff`, the helper that renders a kind for the
message, is declared outside the sources and is a parameter. -/
def parser_expect_token (token_to_buff : TokenKind → String) (parser : Parser)
    (tokenkind : TokenKind) : Outcome TokenKind :=
  match parser.toklist[parser.curr_tok]? with
  | some t =>
    if t.kind = tokenkind then
      parser_chomp parser
    else
      .panic .ErrorUnexpectedToken
        ("Expected `" ++ token_to_buff tokenkind ++ "`; got `" ++ token_to_buff t.kind ++ "`")
        parser
  | none => .undefined

/-- The index of the last token of the parser's token sequence. -/
def lastIndex (parser : Parser) : Nat :=
  parser.toklist.length - 1

/-- The token sequence ends in a token of kind `TOK_EOF`. -/
def endsInEOF (toklist : List Token) : Prop :=
  toklist.getLast?.map Token.kind = some TOK_EOF

/-- A parser over the tokens of kinds `kinds`, with its cursor at offset `cursor`. -/
def parserAt (kinds : List TokenKind) (cursor : Nat) : Parser :=
  { parser_init { toklist := kinds.map tokenOfKind } with curr_tok := cursor }

/-! ## AST nodes (`adorad/compiler/ast.h`, `ast_create_node` of `parser.c`) -/

/-- Enumerators of `enum AstNodeKind`, in declaration order. -/
inductive AstNodeKind where
  | AstNodeKindIdentifier
  | AstNodeKindBlock
  | AstNodeKindFuncPrototype
  | AstNodeKindFuncDef
  | AstNodeKindIntLiteral
  | AstNodeKindFloatLiteral
  | AstNodeKindCharLiteral
  | AstNodeKindStringLiteral
  | AstNodeKindBoolLiteral
  | AstNodeKindNilLiteral
  | AstNodeKindEnumDecl
  | AstNodeKindUnionDecl
  | AstNodeKindVarDecl
  | AstNodeKindFuncCallExpr
  | AstNodeKindIfExpr
  | AstNodeKindLoopWhileExpr
  | AstNodeKindLoopCExpr
  | AstNodeKindLoopInExpr
  | AstNodeKindMatchExpr
  | AstNodeKindCatchExpr
  | AstNodeKindBinaryOpExpr
  | AstNodeKindPrefixOpExpr
  | AstNodeKindFieldAccessExpr
  | AstNodeKindInitExpr
  | AstNodeKindSliceExpr
  | AstNodeKindArrayAccessExpr
  | AstNodeKindArrayType
  | AstNodeKindInferredArrayType
  | AstNodeKindTypeDecl
  | AstNodeKindBreak
  | AstNodeKindContinue
  | AstNodeKindParamDecl
  | AstNodeKindDefer
  | AstNodeKindReturn
  | AstNodeKindUnreachable
  | AstNodeKindMatchBranch
  | AstNodeKindMatchRange
  deriving DecidableEq, Repr

namespace AstNodeKind

/-- Integer value of an enumerator: `AstNodeKindIdentifier = 0`, then consecutive. -/
def val : AstNodeKind → Nat
  | AstNodeKindIdentifier => 0
  | AstNodeKindBlock => 1
  | AstNodeKindFuncPrototype => 2
  | AstNodeKindFuncDef => 3
  | AstNodeKindIntLiteral => 4
  | AstNodeKindFloatLiteral => 5
  | AstNodeKindCharLiteral => 6
  | AstNodeKindStringLiteral => 7
  | AstNodeKindBoolLiteral => 8
  | AstNodeKindNilLiteral => 9
  | AstNodeKindEnumDecl => 10
  | AstNodeKindUnionDecl => 11
  | AstNodeKindVarDecl => 12
  | AstNodeKindFuncCallExpr => 13
  | AstNodeKindIfExpr => 14
  | AstNodeKindLoopWhileExpr => 15
  | AstNodeKindLoopCExpr => 16
  | AstNodeKindLoopInExpr => 17
  | AstNodeKindMatchExpr => 18
  | AstNodeKindCatchExpr => 19
  | AstNodeKindBinaryOpExpr => 20
  | AstNodeKindPrefixOpExpr => 21
  | AstNodeKindFieldAccessExpr => 22
  | AstNodeKindInitExpr => 23
  | AstNodeKindSliceExpr => 24
  | AstNodeKindArrayAccessExpr => 25
  | AstNodeKindArrayType => 26
  | AstNodeKindInferredArrayType => 27
  | AstNodeKindTypeDecl => 28
  | AstNodeKindBreak => 29
  | AstNodeKindContinue => 30
  | AstNodeKindParamDecl => 31
  | AstNodeKindDefer => 32
  | AstNodeKindReturn => 33
  | AstNodeKindUnreachable => 34
  | AstNodeKindMatchBranch => 35
  | AstNodeKindMatchRange => 36

/-- Every enumerator of `enum AstNodeKind`, in declaration order. -/
def all : List AstNodeKind :=
  [AstNodeKindIdentifier, AstNodeKindBlock, AstNodeKindFuncPrototype,
    AstNodeKindFuncDef, AstNodeKindIntLiteral, AstNodeKindFloatLiteral,
    AstNodeKindCharLiteral, AstNodeKindStringLiteral, AstNodeKindBoolLiteral,
    AstNodeKindNilLiteral, AstNodeKindEnumDecl, AstNodeKindUnionDecl,
    AstNodeKindVarDecl, AstNodeKindFuncCallExpr, AstNodeKindIfExpr,
    AstNodeKindLoopWhileExpr, AstNodeKindLoopCExpr, AstNodeKindLoopInExpr,
    AstNodeKindMatchExpr, AstNodeKindCatchExpr, AstNodeKindBinaryOpExpr,
    AstNodeKindPrefixOpExpr, AstNodeKindFieldAccessExpr, AstNodeKindInitExpr,
    AstNodeKindSliceExpr, AstNodeKindArrayAccessExpr, AstNodeKindArrayType,
    AstNodeKindInferredArrayType, AstNodeKindTypeDecl, AstNodeKindBreak,
    AstNodeKindContinue, AstNodeKindParamDecl, AstNodeKindDefer,
    AstNodeKindReturn, AstNodeKindUnreachable, AstNodeKindMatchBranch,
    AstNodeKindMatchRange]

end AstNodeKind

/-- Modelled from the spec: `adorad/compiler/location.h` is not among the sources; a location
records file identity, byte offset, line and column. -/
structure Location where
  fname : String
  offset : Nat
  line : Nat
  col : Nat
  deriving DecidableEq, Repr

/-- Source: `struct AstNode`.  `loc` is a pointer, `none` when null.  `data` is a union of
fifteen pointer members sharing one slot; it is held as the address stored in the slot,
`none` when the slot is the null pointer. -/
structure AstNode where
  kind : AstNodeKind
  loc : Option Location
  data : Option Nat
  deriving DecidableEq, Repr

/-- Source: `ast_create_node`.  `calloc` is taken to succeed; the zero-filled record has null
`loc` and null `data`, and `kind` is then assigned. -/
def ast_create_node (kind : AstNodeKind) : AstNode :=
  { kind := kind, loc := none, data := none }

/-! ## Runs of parser primitives -/

/-- Modelled from the spec: `token_to_buff`, the renderer that `parser_expect_token` calls, is
defined outside the sources; the specification has a kind rendered to its canonical surface
spelling, the string of its `ALLTOKENS` entry, when a diagnostic is formatted. -/
def token_to_buff (k : TokenKind) : String :=
  canonicalSpelling k

/-- The kind of the token the cursor indexes, if it indexes one. -/
def currentKind (parser : Parser) : Option TokenKind :=
  (parser.toklist[parser.curr_tok]?).map Token.kind

namespace Outcome

/-- The parser state an outcome carries: the state after a normal return, the state at the
point of a panic, none for an undefined read. -/
def state {α : Type} : Outcome α → Option Parser
  | .ok _ q => some q
  | .panic _ _ q => some q
  | .undefined => none

/-- The reported error of an outcome: the error code and the formatted message handed to
`adorad_panic`, none when there is no panic. -/
def diagnostic {α : Type} : Outcome α → Option (Error × String)
  | .panic err msg _ => some (err, msg)
  | _ => none

/-- The outcome with its returned value dropped. -/
def void {α : Type} : Outcome α → Outcome Unit
  | .ok _ q => .ok () q
  | .panic err msg q => .panic err msg q
  | .undefined => .undefined

end Outcome

/-- One call of a parser primitive: peek, advance, advance_if with a kind, expect with a
kind. -/
inductive Call where
  | peek
  | advance
  | advance_if (k : TokenKind)
  | expect (k : TokenKind)
  deriving DecidableEq, Repr

namespace Call

/-- The outcome of performing the call on a parser state, returned value dropped. -/
def run (f : TokenKind → String) (c : Call) (p : Parser) : Outcome Unit :=
  match c with
  | .peek => (parser_peek_token p).void
  | .advance => (parser_chomp p).void
  | .advance_if k => (parser_chomp_if p k).void
  | .expect k => (parser_expect_token f p k).void

/-- The call consumes the current token: advance always, advance_if and expect when the
current kind is the kind asked for, peek never. -/
def consumes (c : Call) (p : Parser) : Bool :=
  match c with
  | .peek => false
  | .advance => true
  | .advance_if k => currentKind p == some k
  | .expect k => currentKind p == some k

end Call

/-- Performs the calls in order; a panic ends the run, as `exit(1)` ends the process. -/
def runCalls (f : TokenKind → String) : List Call → Parser → Outcome Unit
  | [], p => .ok () p
  | c :: cs, p =>
    match c.run f p with
    | .ok _ q => runCalls f cs q
    | .panic err msg q => .panic err msg q
    | .undefined => .undefined

/-- Caller discipline along a run: no call consumes a token while the current kind is
`TOK_EOF`. -/
def disciplined (f : TokenKind → String) : List Call → Parser → Bool
  | [], _ => true
  | c :: cs, p =>
    !(c.consumes p && currentKind p == some TOK_EOF) &&
      match c.run f p with
      | .ok _ q => disciplined f cs q
      | _ => true

/-- Calls `parser_chomp` the given number of times and collects the returned kinds; none if
one of the calls does not return. -/
def chompN : Nat → Parser → Option (List TokenKind × Parser)
  | 0, p => some ([], p)
  | n + 1, p =>
    match parser_chomp p with
    | .ok k q => (chompN n q).map (fun r => (k :: r.1, r.2))
    | _ => none

/-- A parser over the given tokens, with its cursor at offset `cursor`. -/
def parserOver (toks : List Token) (cursor : Nat) : Parser :=
  { parser_init { toklist := toks } with curr_tok := cursor }

/-- A token of kind `k` located at the given line and column of the given file. -/
def tokenAt (k : TokenType) (line col : Nat) (fname : String) : Token :=
  { Token.new with type := k, line_no := line, col_no := col, fname := fname }

/-! ## The enumeration and its table -/

/-- The table has one entry per enumerator. -/
theorem ALLTOKENS_length : ALLTOKENS.length = 156 := by
  simp [ALLTOKENS]

set_option maxRecDepth 4000 in
/-- The table finds every enumerator at the position given by its value. -/
theorem ALLTOKENS_get (k : TokenType) : (ALLTOKENS.map Prod.fst)[k.val]? = some k := by
  cases k <;> rfl

/-- Distinct enumerators have distinct values. -/
theorem TokenType.val_injective (a b : TokenType) (h : a.val = b.val) : a = b := by
  have ha := ALLTOKENS_get a
  have hb := ALLTOKENS_get b
  rw [h, hb] at ha
  exact (Option.some.inj ha).symm

/-! ## Top-level families -/

/-- C1, evaluated at the failing input: `TOK_NULL` is a real kind (neither a sentinel nor
`TOK_COUNT`), yet none of `isLiteral`, `isOperator`, `isSeparator`, `isKeyword`, `isSpecial`
holds of it, so it is a member of no family instead of exactly one. -/
theorem C1_TOK_NULL_in_no_family :
    isRealKind TOK_NULL = true ∧ isLiteral TOK_NULL = false ∧ isOperator TOK_NULL = false ∧
      isSeparator TOK_NULL = false ∧ isKeyword TOK_NULL = false ∧
      isSpecial TOK_NULL = false ∧ familyCount TOK_NULL = 0 := by
  decide

/-- Every real kind other than `TOK_NULL` satisfies exactly one of the five family
predicates. -/
theorem familyCount_real_kind (k : TokenType) (hk : isRealKind k = true)
    (hne : k ≠ TOK_NULL) : familyCount k = 1 := by
  cases k <;> first | decide | exact absurd rfl hne | exact absurd hk (by decide)

/-- C2 as stated fails at `TOK_ID`: `isSpecial` holds of it although it is none of
`TOK_EOF`, `TOK_NULL`, `ILLEGAL`, `COMMENT`. -/
theorem C2_counterexample :
    isSpecial TOK_ID = true ∧
      ¬ (TOK_ID = TOK_EOF ∨ TOK_ID = TOK_NULL ∨ TOK_ID = ILLEGAL ∨ TOK_ID = COMMENT) := by
  decide

/-- C2, amended: for every kind `k` other than `TOK_NULL`, `isSpecial k` is true exactly when
`k` is `TOK_ID`, `TOK_EOF`, `ILLEGAL` or `COMMENT`.  The statement is silent about
`TOK_NULL`, which the `Special` section of `ALLTOKENS` lists and `isSpecial` leaves out. -/
theorem C2_isSpecial_iff (k : TokenType) (hk : k ≠ TOK_NULL) :
    isSpecial k = true ↔ (k = TOK_ID ∨ k = TOK_EOF ∨ k = ILLEGAL ∨ k = COMMENT) := by
  cases k <;> decide

/-- C2, amended, at the concrete kind `COMMENT`. -/
theorem C2_isSpecial_iff_witness :
    COMMENT ≠ TOK_NULL ∧
      (isSpecial COMMENT = true ↔
        (COMMENT = TOK_ID ∨ COMMENT = TOK_EOF ∨ COMMENT = ILLEGAL ∨ COMMENT = COMMENT)) :=
  ⟨by decide, C2_isSpecial_iff COMMENT (by decide)⟩

/-- C3 as stated fails at `TOK___COMP_OPERATORS_BEGIN`: it is a sentinel and `isOperator`
holds of it. -/
theorem C3_counterexample :
    isSentinel TOK___COMP_OPERATORS_BEGIN = true ∧
      isOperator TOK___COMP_OPERATORS_BEGIN = true := by
  decide

/-- C3, amended: for every sentinel kind, `isLiteral`, `isSeparator`, `isKeyword` and
`isSpecial` are false, and `isOperator` is true exactly when the sentinel is one of the ten
sentinels of the sub-bands nested inside the operator band; so the eight sentinels of the
top-level bands satisfy none of the five predicates. -/
theorem C3_sentinel_families (k : TokenType) (hk : isSentinel k = true) :
    isLiteral k = false ∧ isSeparator k = false ∧ isKeyword k = false ∧
      isSpecial k = false ∧ (isOperator k = true ↔ isNestedSentinel k = true) := by
  cases k <;> first | decide | exact absurd hk (by decide)

/-- C3, amended, at the concrete sentinel `TOK___OPERATORS_END`. -/
theorem C3_sentinel_families_witness :
    isSentinel TOK___OPERATORS_END = true ∧ isNestedSentinel TOK___OPERATORS_END = false ∧
      isLiteral TOK___OPERATORS_END = false ∧ isSeparator TOK___OPERATORS_END = false ∧
      isKeyword TOK___OPERATORS_END = false ∧ isSpecial TOK___OPERATORS_END = false ∧
      (isOperator TOK___OPERATORS_END = true ↔ isNestedSentinel TOK___OPERATORS_END = true) :=
  ⟨by decide, by decide, C3_sentinel_families TOK___OPERATORS_END (by decide)⟩

/-- C4: for every kind, sentinels and `TOK_COUNT` included, at most one of `isLiteral`,
`isOperator`, `isSeparator`, `isKeyword`, `isSpecial` is true. -/
theorem C4_families_disjoint (k : TokenType) : familyCount k ≤ 1 := by
  cases k <;> decide

/-! ## Band predicates -/

/-- C5: each of the nine band predicates is true of `k` iff the value of `k` lies strictly
between the values of the band's `BEGIN` and `END` sentinels; each predicate is false on its
own two sentinels and true on the first and on the last enumerator declared inside the band
(`isLiteral` on `IDENTIFIER` and `FALSE`, `isKeyword` on `ANY` and `UNION`, `isOperator` on
`PLUS` and also on `OR_OR`, its last non-sentinel member). -/
theorem C5_band_predicates :
    (∀ k : TokenType,
      (isLiteral k = true ↔ strictlyBetween TOK___LITERALS_BEGIN TOK___LITERALS_END k) ∧
      (isOperator k = true ↔ strictlyBetween TOK___OPERATORS_BEGIN TOK___OPERATORS_END k) ∧
      (isComparisonOperator k = true ↔
        strictlyBetween TOK___COMP_OPERATORS_BEGIN TOK___COMP_OPERATORS_END k) ∧
      (isAssignmentOperator k = true ↔
        strictlyBetween TOK___ASSIGNMENT_OPERATORS_BEGIN TOK___ASSIGNMENT_OPERATORS_END k) ∧
      (isArrow k = true ↔
        strictlyBetween TOK___ARROW_OPERATORS_BEGIN TOK___ARROW_OPERATORS_END k) ∧
      (isDelimiter k = true ↔
        strictlyBetween TOK___DELIMITERS_OPERATORS_BEGIN TOK___DELIMITERS_OPERATORS_END k) ∧
      (isBitwise k = true ↔
        strictlyBetween TOK___BITWISE_OPERATORS_BEGIN TOK___BITWISE_OPERATORS_END k) ∧
      (isSeparator k = true ↔ strictlyBetween TOK___SEPARATORS_BEGIN TOK___SEPARATORS_END k) ∧
      (isKeyword k = true ↔ strictlyBetween TOK___KEYWORDS_BEGIN TOK___KEYWORDS_END k)) ∧
    bandEdges isLiteral TOK___LITERALS_BEGIN TOK___LITERALS_END IDENTIFIER FALSE ∧
    bandEdges isOperator TOK___OPERATORS_BEGIN TOK___OPERATORS_END PLUS
      TOK___BITWISE_OPERATORS_END ∧
    isOperator OR_OR = true ∧
    bandEdges isComparisonOperator TOK___COMP_OPERATORS_BEGIN TOK___COMP_OPERATORS_END
      GREATER_THAN EXCLAMATION_EQUALS ∧
    bandEdges isAssignmentOperator TOK___ASSIGNMENT_OPERATORS_BEGIN
      TOK___ASSIGNMENT_OPERATORS_END EQUALS TILDA_EQUALS ∧
    bandEdges isArrow TOK___ARROW_OPERATORS_BEGIN TOK___ARROW_OPERATORS_END
      EQUALS_ARROW LARROW ∧
    bandEdges isDelimiter TOK___DELIMITERS_OPERATORS_BEGIN TOK___DELIMITERS_OPERATORS_END
      LSQUAREBRACK RPAREN ∧
    bandEdges isBitwise TOK___BITWISE_OPERATORS_BEGIN TOK___BITWISE_OPERATORS_END
      LBITSHIFT OR_OR ∧
    bandEdges isSeparator TOK___SEPARATORS_BEGIN TOK___SEPARATORS_END COLON BACKSLASH ∧
    bandEdges isKeyword TOK___KEYWORDS_BEGIN TOK___KEYWORDS_END ANY UNION := by
  refine ⟨fun k => ?_, ?_⟩
  · simp only [strictlyBetween, isLiteral, isOperator, isComparisonOperator,
      isAssignmentOperator, isArrow, isDelimiter, isBitwise, isSeparator, isKeyword,
      Bool.and_eq_true, decide_eq_true_eq, gt_iff_lt, and_self]
  · simp only [bandEdges]
    decide

/-- C6: each of the five sub-band predicates implies `isOperator`, and no kind satisfies two
of them. -/
theorem C6_sub_bands_nested_disjoint (k : TokenType) :
    (isComparisonOperator k = true → isOperator k = true) ∧
      (isAssignmentOperator k = true → isOperator k = true) ∧
      (isArrow k = true → isOperator k = true) ∧
      (isDelimiter k = true → isOperator k = true) ∧
      (isBitwise k = true → isOperator k = true) ∧
      subBandCount k ≤ 1 := by
  cases k <;> decide

/-! ## Composite predicates -/

/-- C7, evaluated at the failing input: `TRUE` is a literal kind, yet
`isPrimaryExpressionStatement` is false of it (and likewise of `FALSE`). -/
theorem C7_TRUE_not_primary :
    isLiteral TRUE = true ∧ isPrimaryExpressionStatement TRUE = false ∧
      isLiteral FALSE = true ∧ isPrimaryExpressionStatement FALSE = false := by
  decide

/-- The kinds accepted by `isPrimaryExpressionStatement` are literals, `TOK_NULL`, `FUNC`,
`ILLEGAL` or a parenthesis; the accepted literals are eight of the twenty-four. -/
theorem isPrimaryExpressionStatement_iff (k : TokenType) :
    isPrimaryExpressionStatement k = true ↔
      (k = INTEGER ∨ k = BIN_INT ∨ k = HEX_INT ∨ k = IMAG ∨ k = FLOAT ∨ k = RUNE ∨
        k = STRING ∨ k = IDENTIFIER ∨ k = TOK_NULL ∨ k = FUNC ∨ k = ILLEGAL ∨
        k = LPAREN ∨ k = RPAREN) := by
  cases k <;> decide

/-- C8: `isDeclStatement k` is true exactly when `k` is `ANY`, `FUNC`, `CLASS`, `STRUCT`,
`ENUM`, `MODULE` or `SEMICOLON`. -/
theorem C8_isDeclStatement_iff (k : TokenType) :
    isDeclStatement k = true ↔
      (k = ANY ∨ k = FUNC ∨ k = CLASS ∨ k = STRUCT ∨ k = ENUM ∨ k = MODULE ∨
        k = SEMICOLON) := by
  cases k <;> decide

/-- C9: `isJumpStatement k` is true exactly when `k` is `BREAK`, `CONTINUE` or `RETURN`. -/
theorem C9_isJumpStatement_iff (k : TokenType) :
    isJumpStatement k = true ↔ (k = BREAK ∨ k = CONTINUE ∨ k = RETURN) := by
  cases k <;> decide

/-- C10: `isLoopStatement k` is true exactly when `k` is `WHILE` or `FOR`. -/
theorem C10_isLoopStatement_iff (k : TokenType) :
    isLoopStatement k = true ↔ (k = WHILE ∨ k = FOR) := by
  cases k <;> decide

/-- C11: `isFlowStatement k` is true exactly when `k` is `IF` or `MATCH`. -/
theorem C11_isFlowStatement_iff (k : TokenType) :
    isFlowStatement k = true ↔ (k = IF ∨ k = MATCH) := by
  cases k <;> decide

/-! ## Rendering of kinds -/

set_option maxRecDepth 4000 in
/-- C12, evaluated at failing inputs: `COMMA`, `MULT_MULT`, `USE` and `TOK_ID` are real kinds
whose `toString` is not the string paired with them in `ALLTOKENS`: `COMMA` renders as the
colon, the other three reach the final `return "ILLEGAL"`. -/
theorem C12_toString_differs_from_table :
    (isRealKind COMMA = true ∧ (tokenOfKind COMMA).toString = ":" ∧
      canonicalSpelling COMMA = ",") ∧
    (isRealKind MULT_MULT = true ∧ (tokenOfKind MULT_MULT).toString = "ILLEGAL" ∧
      canonicalSpelling MULT_MULT = "**") ∧
    (isRealKind USE = true ∧ (tokenOfKind USE).toString = "ILLEGAL" ∧
      canonicalSpelling USE = "use") ∧
    (isRealKind TOK_ID = true ∧ (tokenOfKind TOK_ID).toString = "ILLEGAL" ∧
      canonicalSpelling TOK_ID = "TOK_ID") := by
  decide

set_option maxRecDepth 4000 in
/-- A token of a real kind renders as the string of its `ALLTOKENS` entry unless its kind is
one of `TOK_ID`, `MULT_MULT`, `SLASH_SLASH`, `TILDA_EQUALS`, `COMMA`, `USE`. -/
theorem toString_eq_canonicalSpelling (t : Token) (hreal : isRealKind t.type = true)
    (hne : t.type ≠ TOK_ID ∧ t.type ≠ MULT_MULT ∧ t.type ≠ SLASH_SLASH ∧
      t.type ≠ TILDA_EQUALS ∧ t.type ≠ COMMA ∧ t.type ≠ USE) :
    t.toString = canonicalSpelling t.type := by
  obtain ⟨type, offset, tok_bytes, line_no, col_no, tok_length, fname, value⟩ := t
  dsimp only at hreal hne
  cases type <;> first | rfl | exact absurd hreal (by decide) | exact absurd hne (by decide)

/-- C13, evaluated at failing inputs: `COLON` and `COMMA` are distinct real kinds of the
separator band that both render as the colon, and `MULT_MULT` and `SLASH_SLASH` are distinct
real kinds of the operator band that both render as `ILLEGAL`. -/
theorem C13_toString_not_injective :
    (COLON ≠ COMMA ∧ isRealKind COLON = true ∧ isRealKind COMMA = true ∧
      isSeparator COLON = true ∧ isSeparator COMMA = true ∧
      (tokenOfKind COLON).toString = (tokenOfKind COMMA).toString) ∧
    (MULT_MULT ≠ SLASH_SLASH ∧ isRealKind MULT_MULT = true ∧ isRealKind SLASH_SLASH = true ∧
      isOperator MULT_MULT = true ∧ isOperator SLASH_SLASH = true ∧
      (tokenOfKind MULT_MULT).toString = (tokenOfKind SLASH_SLASH).toString) := by
  decide

/-! ## Parser primitives -/

/-- C14: when the cursor indexes the token `t`, `parser_peek_token` returns the kind of `t`
and the parser state after the call is the state before it (cursor, token sequence and every
other member); hence a second peek returns the same kind. -/
theorem C14_peek_no_side_effect (p : Parser) (t : Token)
    (h : p.toklist[p.curr_tok]? = some t) :
    parser_peek_token p = .ok t.kind p ∧
      ∀ k q, parser_peek_token p = .ok k q → parser_peek_token q = .ok k q := by
  have hp : parser_peek_token p = .ok t.kind p := by simp [parser_peek_token, h]
  refine ⟨hp, fun k q hq => ?_⟩
  rw [hp] at hq
  injection hq with hk hpq
  subst hk hpq
  exact hp

/-- C14 at the parser over `( TOK_EOF` with its cursor on the parenthesis. -/
theorem C14_peek_no_side_effect_witness :
    (parserAt [LPAREN, TOK_EOF] 0).toklist[(parserAt [LPAREN, TOK_EOF] 0).curr_tok]?
        = some (tokenOfKind LPAREN) ∧
      parser_peek_token (parserAt [LPAREN, TOK_EOF] 0)
        = .ok LPAREN (parserAt [LPAREN, TOK_EOF] 0) :=
  ⟨by decide, (C14_peek_no_side_effect (parserAt [LPAREN, TOK_EOF] 0) (tokenOfKind LPAREN)
    (by decide)).1⟩

/-- C15: when the cursor indexes the token `t`, `parser_chomp` returns the kind that
`parser_peek_token` returns in the same state, and the state after the call has the cursor
moved forward by one and the token sequence, the token count and the lexer unchanged. -/
theorem C15_chomp_advances_by_one (p : Parser) (t : Token)
    (h : p.toklist[p.curr_tok]? = some t) :
    ∃ k q, parser_peek_token p = .ok k p ∧ parser_chomp p = .ok k q ∧
      q.curr_tok = p.curr_tok + 1 ∧ q.toklist = p.toklist ∧ q.tok_count = p.tok_count ∧
      q.lexer = p.lexer := by
  refine ⟨t.kind, { p with curr_tok := p.curr_tok + 1 }, ?_, ?_, rfl, rfl, rfl, rfl⟩
  · simp [parser_peek_token, h]
  · simp [parser_chomp, parser_peek_token, h]

/-- C15 at the parser over `( TOK_EOF` with its cursor on the parenthesis. -/
theorem C15_chomp_advances_by_one_witness :
    ∃ k q, parser_peek_token (parserAt [LPAREN, TOK_EOF] 0)
        = .ok k (parserAt [LPAREN, TOK_EOF] 0) ∧
      parser_chomp (parserAt [LPAREN, TOK_EOF] 0) = .ok k q ∧
      q.curr_tok = (parserAt [LPAREN, TOK_EOF] 0).curr_tok + 1 ∧
      q.toklist = (parserAt [LPAREN, TOK_EOF] 0).toklist ∧
      q.tok_count = (parserAt [LPAREN, TOK_EOF] 0).tok_count ∧
      q.lexer = (parserAt [LPAREN, TOK_EOF] 0).lexer :=
  C15_chomp_advances_by_one (parserAt [LPAREN, TOK_EOF] 0) (tokenOfKind LPAREN) (by decide)

/-- C16 as stated fails for the sequence `IDENTIFIER TOK_EOF` with the cursor on the final
`TOK_EOF` token: `parser_chomp` returns `TOK_EOF` and leaves the cursor at offset 2, above
the index 1 of the final token. -/
theorem C16_counterexample :
    endsInEOF (parserAt [IDENTIFIER, TOK_EOF] 1).toklist ∧
      (parserAt [IDENTIFIER, TOK_EOF] 1).curr_tok = lastIndex (parserAt [IDENTIFIER, TOK_EOF] 1) ∧
      parser_chomp (parserAt [IDENTIFIER, TOK_EOF] 1)
        = .ok TOK_EOF (parserAt [IDENTIFIER, TOK_EOF] 2) ∧
      ¬ (parserAt [IDENTIFIER, TOK_EOF] 2).curr_tok
          ≤ lastIndex (parserAt [IDENTIFIER, TOK_EOF] 2) := by
  unfold endsInEOF lastIndex
  decide

/-- C16, amended: for a token sequence that ends in `TOK_EOF` and a parser state over it whose
cursor is before the final token, `parser_chomp` returns and the cursor after the call is at
most the index of the final token, which is still the `TOK_EOF` token. -/
theorem C16_chomp_before_last (p : Parser) (hEOF : endsInEOF p.toklist)
    (h : p.curr_tok < lastIndex p) :
    ∃ k q, parser_chomp p = .ok k q ∧ q.curr_tok ≤ lastIndex q ∧ q.toklist = p.toklist ∧
      (q.toklist[lastIndex q]?).map Token.kind = some TOK_EOF := by
  unfold lastIndex at h
  have hlt : p.curr_tok < p.toklist.length := by omega
  refine ⟨(p.toklist[p.curr_tok]).kind, { p with curr_tok := p.curr_tok + 1 }, ?_, ?_, rfl, ?_⟩
  · simp [parser_chomp, parser_peek_token, List.getElem?_eq_getElem hlt]
  · show p.curr_tok + 1 ≤ p.toklist.length - 1
    omega
  · show (p.toklist[p.toklist.length - 1]?).map Token.kind = some TOK_EOF
    rw [← List.getLast?_eq_getElem?]
    exact hEOF

/-- C16, amended, at the sequence `IDENTIFIER TOK_EOF` with the cursor on `IDENTIFIER`. -/
theorem C16_chomp_before_last_witness :
    endsInEOF (parserAt [IDENTIFIER, TOK_EOF] 0).toklist ∧
      (parserAt [IDENTIFIER, TOK_EOF] 0).curr_tok < lastIndex (parserAt [IDENTIFIER, TOK_EOF] 0) ∧
      ∃ k q, parser_chomp (parserAt [IDENTIFIER, TOK_EOF] 0) = .ok k q ∧
        q.curr_tok ≤ lastIndex q ∧ q.toklist = (parserAt [IDENTIFIER, TOK_EOF] 0).toklist ∧
        (q.toklist[lastIndex q]?).map Token.kind = some TOK_EOF :=
  ⟨by unfold endsInEOF; decide, by unfold lastIndex; decide,
    C16_chomp_before_last (parserAt [IDENTIFIER, TOK_EOF] 0) (by unfold endsInEOF; decide)
      (by unfold lastIndex; decide)⟩

/-- C17: when the cursor indexes the token `t`, `parser_chomp_if p k` returns the value of `k`
with the cursor moved forward by one if the kind of `t` is `k`, and otherwise returns the
no-match value `-1` with the parser state unchanged. -/
theorem C17_chomp_if (p : Parser) (k : TokenKind) (t : Token)
    (h : p.toklist[p.curr_tok]? = some t) :
    (t.kind = k →
        parser_chomp_if p k = .ok (k.val : Int) { p with curr_tok := p.curr_tok + 1 }) ∧
      (t.kind ≠ k → parser_chomp_if p k = .ok (-1) p) := by
  constructor
  · intro hk
    simp [parser_chomp_if, parser_chomp, parser_peek_token, h, hk]
  · intro hk
    simp [parser_chomp_if, h, hk]

/-- C17 at the parser over `( TOK_EOF` with its cursor on the parenthesis: asking for `(`
advances, asking for `)` does not. -/
theorem C17_chomp_if_witness :
    parser_chomp_if (parserAt [LPAREN, TOK_EOF] 0) LPAREN
        = .ok (LPAREN.val : Int) (parserAt [LPAREN, TOK_EOF] 1) ∧
      parser_chomp_if (parserAt [LPAREN, TOK_EOF] 0) RPAREN
        = .ok (-1) (parserAt [LPAREN, TOK_EOF] 0) :=
  ⟨(C17_chomp_if (parserAt [LPAREN, TOK_EOF] 0) LPAREN (tokenOfKind LPAREN) (by decide)).1
      (by decide),
    (C17_chomp_if (parserAt [LPAREN, TOK_EOF] 0) RPAREN (tokenOfKind LPAREN) (by decide)).2
      (by decide)⟩

/-- C19: when the cursor indexes the token `t`, `parser_expect_token` returns normally iff the
kind of `t` is `k`; in that case it returns `k` with the cursor moved forward by one, and
when the kinds differ it ends in a panic with the error `ErrorUnexpectedToken` and returns
no kind. -/
theorem C19_expect (f : TokenKind → String) (p : Parser) (k : TokenKind) (t : Token)
    (h : p.toklist[p.curr_tok]? = some t) :
    ((∃ v q, parser_expect_token f p k = .ok v q) ↔ t.kind = k) ∧
      (t.kind = k →
        parser_expect_token f p k = .ok k { p with curr_tok := p.curr_tok + 1 }) ∧
      (t.kind ≠ k → ∃ msg q, parser_expect_token f p k = .panic .ErrorUnexpectedToken msg q) := by
  by_cases hk : t.kind = k
  · have hok : parser_expect_token f p k = .ok k { p with curr_tok := p.curr_tok + 1 } := by
      simp [parser_expect_token, parser_chomp, parser_peek_token, h, hk]
    exact ⟨⟨fun _ => hk, fun _ => ⟨_, _, hok⟩⟩, fun _ => hok, fun hne => absurd hk hne⟩
  · have hpanic : parser_expect_token f p k
        = .panic .ErrorUnexpectedToken
            ("Expected `" ++ f k ++ "`; got `" ++ f t.kind ++ "`") p := by
      simp [parser_expect_token, h, hk]
    refine ⟨⟨fun ⟨v, q, hv⟩ => ?_, fun hk' => absurd hk' hk⟩, fun hk' => absurd hk' hk,
      fun _ => ⟨_, _, hpanic⟩⟩
    rw [hpanic] at hv
    cases hv

/-- C19 at the parser over `( TOK_EOF`: expecting `(` on the parenthesis succeeds. -/
theorem C19_expect_witness :
    parser_expect_token (fun k => (tokenOfKind k).toString) (parserAt [LPAREN, TOK_EOF] 0) LPAREN
      = .ok LPAREN (parserAt [LPAREN, TOK_EOF] 1) :=
  (C19_expect (fun k => (tokenOfKind k).toString) (parserAt [LPAREN, TOK_EOF] 0) LPAREN
    (tokenOfKind LPAREN) (by decide)).2.1 (by decide)

/-- C20: when the cursor indexes a token whose kind differs from `k`, `parser_expect_token`
ends in a panic, and the parser state at that point is the state before the call. -/
theorem C20_expect_failure_keeps_state (f : TokenKind → String) (p : Parser) (k : TokenKind)
    (t : Token) (h : p.toklist[p.curr_tok]? = some t) (hne : t.kind ≠ k) :
    ∃ err msg, parser_expect_token f p k = .panic err msg p := by
  exact ⟨_, _, by simp [parser_expect_token, h, hne]; exact ⟨rfl, rfl⟩⟩

/-- C20 at the parser over `( TOK_EOF` with its cursor on `TOK_EOF`, expecting `)`. -/
theorem C20_expect_failure_keeps_state_witness :
    ∃ err msg, parser_expect_token (fun k => (tokenOfKind k).toString)
      (parserAt [LPAREN, TOK_EOF] 1) RPAREN = .panic err msg (parserAt [LPAREN, TOK_EOF] 1) :=
  C20_expect_failure_keeps_state (fun k => (tokenOfKind k).toString)
    (parserAt [LPAREN, TOK_EOF] 1) RPAREN (tokenOfKind TOK_EOF) (by decide) (by decide)

/-! ## Diagnostics of `parser_expect_token` -/

/-- C21: when the cursor indexes a token whose kind differs from `k`, `parser_expect_token`
ends in a panic with the error `ErrorUnexpectedToken` whose message names the spelling of
`k` first and the spelling of the current kind second. -/
theorem C21_expect_message (p : Parser) (k : TokenKind) (t : Token)
    (h : p.toklist[p.curr_tok]? = some t) (hne : t.kind ≠ k) :
    (parser_expect_token token_to_buff p k).diagnostic
      = some (Error.ErrorUnexpectedToken,
          "Expected `" ++ canonicalSpelling k ++ "`; got `" ++ canonicalSpelling t.kind
            ++ "`") := by
  simp [parser_expect_token, h, hne, Outcome.diagnostic, token_to_buff]

set_option maxRecDepth 8000 in
/-- C21 at the tokens of `foo(1, 2` with the cursor on the final `TOK_EOF`, expecting `)`. -/
theorem C21_expect_message_witness :
    (parser_expect_token token_to_buff
        (parserAt [IDENTIFIER, LPAREN, INTEGER, COMMA, INTEGER, TOK_EOF] 5) RPAREN).diagnostic
      = some (Error.ErrorUnexpectedToken, "Expected `)`; got `TOK_EOF`") := by
  have hmsg : "Expected `" ++ canonicalSpelling RPAREN ++ "`; got `"
      ++ canonicalSpelling (tokenOfKind TOK_EOF).kind ++ "`" = "Expected `)`; got `TOK_EOF`" := by
    decide
  rw [← hmsg]
  exact C21_expect_message (parserAt [IDENTIFIER, LPAREN, INTEGER, COMMA, INTEGER, TOK_EOF] 5)
    RPAREN (tokenOfKind TOK_EOF) (by decide) (by decide)

/-- Whatever renderer `f` stands for `token_to_buff`, a failing `parser_expect_token` reports
`ErrorUnexpectedToken` with the message built from `f k` and `f` of the current kind. -/
theorem expect_diagnostic (f : TokenKind → String) (p : Parser) (k : TokenKind) (t : Token)
    (h : p.toklist[p.curr_tok]? = some t) (hne : t.kind ≠ k) :
    (parser_expect_token f p k).diagnostic
      = some (Error.ErrorUnexpectedToken,
          "Expected `" ++ f k ++ "`; got `" ++ f t.kind ++ "`") := by
  simp [parser_expect_token, h, hne, Outcome.diagnostic]

set_option maxRecDepth 8000 in
/-- C22 as stated fails: two `TOK_EOF` tokens at different lines, columns and files make a
failing `parser_expect_token` report the same error code and the same message, so the
reported error does not carry the location of the current token. -/
theorem C22_counterexample :
    ((tokenAt TOK_EOF 1 8 "a.ad").line_no ≠ (tokenAt TOK_EOF 7 0 "b.ad").line_no ∧
      (tokenAt TOK_EOF 1 8 "a.ad").col_no ≠ (tokenAt TOK_EOF 7 0 "b.ad").col_no ∧
      (tokenAt TOK_EOF 1 8 "a.ad").fname ≠ (tokenAt TOK_EOF 7 0 "b.ad").fname) ∧
    (parser_expect_token token_to_buff (parserOver [tokenAt TOK_EOF 1 8 "a.ad"] 0)
        RPAREN).diagnostic
      = some (Error.ErrorUnexpectedToken, "Expected `)`; got `TOK_EOF`") ∧
    (parser_expect_token token_to_buff (parserOver [tokenAt TOK_EOF 7 0 "b.ad"] 0)
        RPAREN).diagnostic
      = some (Error.ErrorUnexpectedToken, "Expected `)`; got `TOK_EOF`") := by
  decide

/-- C22, amended: the error reported by a failing `parser_expect_token` is determined by the
expected kind and the kind of the current token; two states whose current tokens have the
same kind report the same error, whatever the tokens' line, column and file name. -/
theorem C22_diagnostic_depends_on_kinds_only (f : TokenKind → String) (p₁ p₂ : Parser)
    (k : TokenKind) (t₁ t₂ : Token) (h₁ : p₁.toklist[p₁.curr_tok]? = some t₁)
    (h₂ : p₂.toklist[p₂.curr_tok]? = some t₂) (hkind : t₁.kind = t₂.kind)
    (hne : t₁.kind ≠ k) :
    (parser_expect_token f p₁ k).diagnostic = (parser_expect_token f p₂ k).diagnostic ∧
      (parser_expect_token f p₁ k).diagnostic
        = some (Error.ErrorUnexpectedToken,
            "Expected `" ++ f k ++ "`; got `" ++ f t₁.kind ++ "`") := by
  have hne₂ : t₂.kind ≠ k := hkind ▸ hne
  simp [parser_expect_token, h₁, h₂, hne, hne₂, Outcome.diagnostic, hkind]

/-- C22, amended, at two `TOK_EOF` tokens located in different files, expecting `)`. -/
theorem C22_diagnostic_depends_on_kinds_only_witness :
    (parser_expect_token token_to_buff (parserOver [tokenAt TOK_EOF 1 8 "a.ad"] 0)
        RPAREN).diagnostic
      = (parser_expect_token token_to_buff (parserOver [tokenAt TOK_EOF 7 0 "b.ad"] 0)
        RPAREN).diagnostic :=
  (C22_diagnostic_depends_on_kinds_only token_to_buff
    (parserOver [tokenAt TOK_EOF 1 8 "a.ad"] 0) (parserOver [tokenAt TOK_EOF 7 0 "b.ad"] 0)
    RPAREN (tokenAt TOK_EOF 1 8 "a.ad") (tokenAt TOK_EOF 7 0 "b.ad") (by decide) (by decide)
    (by decide) (by decide)).1

/-! ## Cursor movement -/

/-- C23: for every parser state, every primitive call and every renderer, if the call leaves
a parser state (it returns or panics) then the cursor of that state is at least the cursor
before the call and at most one more; and the call does leave a state whenever the cursor
indexes a token. -/
theorem C23_cursor_monotone (f : TokenKind → String) (c : Call) (p : Parser) :
    (∀ q, (c.run f p).state = some q →
        p.curr_tok ≤ q.curr_tok ∧ q.curr_tok ≤ p.curr_tok + 1) ∧
      (p.curr_tok < p.toklist.length → ∃ q, (c.run f p).state = some q) := by
  constructor
  · intro q hq
    cases hcur : p.toklist[p.curr_tok]? with
    | none =>
      cases c <;>
        simp [Call.run, parser_peek_token, parser_chomp, parser_chomp_if, parser_expect_token,
          hcur, Outcome.void, Outcome.state] at hq
    | some t =>
      cases c with
      | peek =>
        simp [Call.run, parser_peek_token, hcur, Outcome.void, Outcome.state] at hq
        subst hq
        omega
      | advance =>
        simp [Call.run, parser_chomp, parser_peek_token, hcur, Outcome.void,
          Outcome.state] at hq
        subst hq
        simp
      | advance_if k =>
        by_cases hk : t.kind = k
        · simp [Call.run, parser_chomp_if, parser_chomp, parser_peek_token, hcur, hk,
            Outcome.void, Outcome.state] at hq
          subst hq
          simp
        · simp [Call.run, parser_chomp_if, hcur, hk, Outcome.void, Outcome.state] at hq
          subst hq
          omega
      | expect k =>
        by_cases hk : t.kind = k
        · simp [Call.run, parser_expect_token, parser_chomp, parser_peek_token, hcur, hk,
            Outcome.void, Outcome.state] at hq
          subst hq
          simp
        · simp [Call.run, parser_expect_token, hcur, hk, Outcome.void, Outcome.state] at hq
          subst hq
          omega
  · intro hlt
    have hcur : p.toklist[p.curr_tok]? = some p.toklist[p.curr_tok] :=
      List.getElem?_eq_getElem hlt
    cases c with
    | peek => simp [Call.run, parser_peek_token, hcur, Outcome.void, Outcome.state]
    | advance =>
      simp [Call.run, parser_chomp, parser_peek_token, hcur, Outcome.void, Outcome.state]
    | advance_if k =>
      by_cases hk : (p.toklist[p.curr_tok]).kind = k <;>
        simp [Call.run, parser_chomp_if, parser_chomp, parser_peek_token, hcur, hk,
          Outcome.void, Outcome.state]
    | expect k =>
      by_cases hk : (p.toklist[p.curr_tok]).kind = k <;>
        simp [Call.run, parser_expect_token, parser_chomp, parser_peek_token, hcur, hk,
          Outcome.void, Outcome.state]

/-- C23 at the parser over `( TOK_EOF`: an advance moves the cursor from 0 to 1. -/
theorem C23_cursor_monotone_witness :
    (parserAt [LPAREN, TOK_EOF] 0).curr_tok ≤ (parserAt [LPAREN, TOK_EOF] 1).curr_tok ∧
      (parserAt [LPAREN, TOK_EOF] 1).curr_tok ≤ (parserAt [LPAREN, TOK_EOF] 0).curr_tok + 1 :=
  (C23_cursor_monotone token_to_buff Call.advance (parserAt [LPAREN, TOK_EOF] 0)).1
    (parserAt [LPAREN, TOK_EOF] 1) (by decide)

/-- From any state with at least `m` tokens left, `m` successive `parser_chomp` calls return
the kinds of the next `m` tokens in order and move the cursor forward by `m`. -/
theorem chompN_from (m : Nat) : ∀ p : Parser, p.curr_tok + m ≤ p.toklist.length →
    chompN m p = some (((p.toklist.drop p.curr_tok).take m).map Token.kind,
      { p with curr_tok := p.curr_tok + m }) := by
  induction m with
  | zero => intro p _; simp [chompN]
  | succ m ih =>
    intro p hp
    have hlt : p.curr_tok < p.toklist.length := by omega
    have hcur : p.toklist[p.curr_tok]? = some p.toklist[p.curr_tok] :=
      List.getElem?_eq_getElem hlt
    have hstep : parser_chomp p
        = .ok (p.toklist[p.curr_tok]).kind { p with curr_tok := p.curr_tok + 1 } := by
      simp [parser_chomp, parser_peek_token, hcur]
    have hih := ih { p with curr_tok := p.curr_tok + 1 } (by simp; omega)
    dsimp only at hih
    have hdrop : p.toklist.drop p.curr_tok
        = p.toklist[p.curr_tok] :: p.toklist.drop (p.curr_tok + 1) :=
      List.drop_eq_getElem_cons hlt
    simp only [chompN, hstep, hih, Option.map_some']
    rw [hdrop, List.take_succ_cons, List.map_cons,
      show p.curr_tok + 1 + m = p.curr_tok + (m + 1) by omega]

/-- C24: for every lexer token list and every `m` up to its length, `m` successive calls of
`parser_chomp` from the state made by `parser_init` return the kinds of tokens `0 .. m-1` in
that order and leave the cursor at `m` with the token list unchanged; when `m` is below the
length, a following `parser_peek_token` returns the kind of token `m`. -/
theorem C24_tokens_consumed_in_order (lexer : Lexer) (m : Nat)
    (hm : m ≤ lexer.toklist.length) :
    ∃ q, chompN m (parser_init lexer) = some ((lexer.toklist.take m).map Token.kind, q) ∧
      q.curr_tok = m ∧ q.toklist = lexer.toklist ∧
      ∀ hlt : m < lexer.toklist.length,
        parser_peek_token q = .ok (lexer.toklist[m]).kind q := by
  have h := chompN_from m (parser_init lexer) (by simpa [parser_init] using hm)
  refine ⟨{ parser_init lexer with curr_tok := (parser_init lexer).curr_tok + m }, ?_, ?_, rfl,
    ?_⟩
  · simpa [parser_init] using h
  · simp [parser_init]
  · intro hlt
    simp [parser_peek_token, parser_init, List.getElem?_eq_getElem hlt]

/-- C24 at the tokens of `x = 1` followed by `TOK_EOF`: three advances return `IDENTIFIER`,
`EQUALS`, `INTEGER` and leave the cursor at 3. -/
theorem C24_tokens_consumed_in_order_witness :
    ∃ q, chompN 3 (parser_init { toklist := [tokenOfKind IDENTIFIER, tokenOfKind EQUALS,
          tokenOfKind INTEGER, tokenOfKind TOK_EOF] })
        = some (([tokenOfKind IDENTIFIER, tokenOfKind EQUALS, tokenOfKind INTEGER,
            tokenOfKind TOK_EOF].take 3).map Token.kind, q) ∧
      q.curr_tok = 3 ∧
      q.toklist = [tokenOfKind IDENTIFIER, tokenOfKind EQUALS, tokenOfKind INTEGER,
        tokenOfKind TOK_EOF] ∧
      ∀ hlt : 3 < [tokenOfKind IDENTIFIER, tokenOfKind EQUALS, tokenOfKind INTEGER,
          tokenOfKind TOK_EOF].length,
        parser_peek_token q
          = .ok ([tokenOfKind IDENTIFIER, tokenOfKind EQUALS, tokenOfKind INTEGER,
              tokenOfKind TOK_EOF][3]).kind q :=
  C24_tokens_consumed_in_order { toklist := [tokenOfKind IDENTIFIER, tokenOfKind EQUALS,
    tokenOfKind INTEGER, tokenOfKind TOK_EOF] } 3 (by decide)

/-! ## AST nodes -/

/-- C25: for every node kind `K`, the node made by `ast_create_node K` has kind tag `K`, a
null location and a null payload slot. -/
theorem C25_ast_create_node (K : AstNodeKind) :
    (ast_create_node K).kind = K ∧ (ast_create_node K).loc = none ∧
      (ast_create_node K).data = none :=
  ⟨rfl, rfl, rfl⟩

/-- C30 as stated fails: `enum AstNodeKind` has 37 enumerators, fewer than 60. -/
theorem C30_counterexample :
    AstNodeKind.all.length = 37 ∧ ¬ 60 ≤ AstNodeKind.all.length := by
  decide

/-- C30, amended: `enum AstNodeKind` is a closed set of 37 distinct node kinds: the list of
its enumerators has 37 entries without repetition, holds every node kind, and the entries
have the values 0 to 36 in order. -/
theorem C30_AstNodeKind_members :
    AstNodeKind.all.length = 37 ∧ AstNodeKind.all.Nodup ∧
      (∀ K : AstNodeKind, K ∈ AstNodeKind.all) ∧
      AstNodeKind.all.map AstNodeKind.val = List.range 37 := by
  refine ⟨by decide, by decide, fun K => ?_, by decide⟩
  cases K <;> decide

/-! ## Expression starts and the `toString` fallback -/

/-- C27, evaluated at the failing input: `INTEGER` is accepted by
`isPrimaryExpressionStatement` and rejected by `isExpressionStatement`. -/
theorem C27_INTEGER_not_expression :
    isPrimaryExpressionStatement INTEGER = true ∧ isExpressionStatement INTEGER = false := by
  decide

/-- `isExpressionStatement k` is true exactly when `k` is `MODULE`, `PLUS`, `MINUS`,
`EXCLAMATION`, `NOT` or `RAISE`: the comparison of the promoted `bool` with `ANY` never
holds. -/
theorem isExpressionStatement_iff (k : TokenType) :
    isExpressionStatement k = true ↔
      (k = MODULE ∨ k = PLUS ∨ k = MINUS ∨ k = EXCLAMATION ∨ k = NOT ∨ k = RAISE) := by
  cases k <;> decide

/-- C28, evaluated at failing inputs: `TOK_ID`, `MULT_MULT`, `SLASH_SLASH`, `TILDA_EQUALS`
and `USE` are real kinds other than `ILLEGAL` whose `toString` is the fallback result
`ILLEGAL`. -/
theorem C28_fallback_reached :
    (isRealKind TOK_ID = true ∧ TOK_ID ≠ ILLEGAL ∧
      (tokenOfKind TOK_ID).toString = "ILLEGAL") ∧
    (isRealKind MULT_MULT = true ∧ MULT_MULT ≠ ILLEGAL ∧
      (tokenOfKind MULT_MULT).toString = "ILLEGAL") ∧
    (isRealKind SLASH_SLASH = true ∧ SLASH_SLASH ≠ ILLEGAL ∧
      (tokenOfKind SLASH_SLASH).toString = "ILLEGAL") ∧
    (isRealKind TILDA_EQUALS = true ∧ TILDA_EQUALS ≠ ILLEGAL ∧
      (tokenOfKind TILDA_EQUALS).toString = "ILLEGAL") ∧
    (isRealKind USE = true ∧ USE ≠ ILLEGAL ∧ (tokenOfKind USE).toString = "ILLEGAL") := by
  decide

/-- A token of a real kind other than `TOK_ID`, `MULT_MULT`, `SLASH_SLASH`, `TILDA_EQUALS`
and `USE` renders as `ILLEGAL` only if its kind is `ILLEGAL`. -/
theorem toString_eq_ILLEGAL (t : Token) (hreal : isRealKind t.type = true)
    (hne : t.type ≠ TOK_ID ∧ t.type ≠ MULT_MULT ∧ t.type ≠ SLASH_SLASH ∧
      t.type ≠ TILDA_EQUALS ∧ t.type ≠ USE)
    (hs : t.toString = "ILLEGAL") : t.type = ILLEGAL := by
  have hs' : (tokenOfKind t.type).toString = "ILLEGAL" := by
    rw [← hs]
    cases t
    rfl
  revert hreal hne hs'
  generalize t.type = k
  cases k <;> decide

/-! ## Caller discipline -/

/-- In a token list that ends in `TOK_EOF`, a token of another kind is not the last one. -/
theorem succ_lt_length_of_kind_ne_EOF (l : List Token) (i : Nat) (hEOF : endsInEOF l)
    (hi : i < l.length) (hk : (l[i]).kind ≠ TOK_EOF) : i + 1 < l.length := by
  unfold endsInEOF at hEOF
  rw [List.getLast?_eq_getElem?] at hEOF
  by_contra hcon
  have hi' : l.length - 1 = i := by omega
  rw [hi', List.getElem?_eq_getElem hi] at hEOF
  simp only [Option.map_some', Option.some.injEq] at hEOF
  exact hk hEOF

/-- One disciplined call from a state whose cursor indexes a token either returns with the
cursor still indexing a token of the same list, or panics in the state it was called in. -/
theorem Call.run_in_range (f : TokenKind → String) (c : Call) (p : Parser)
    (hEOF : endsInEOF p.toklist) (hlt : p.curr_tok < p.toklist.length)
    (hd : (c.consumes p && currentKind p == some TOK_EOF) = false) :
    (∃ q, c.run f p = .ok () q ∧ q.curr_tok < q.toklist.length ∧ q.toklist = p.toklist) ∨
      (∃ err msg, c.run f p = .panic err msg p) := by
  have hcur : p.toklist[p.curr_tok]? = some p.toklist[p.curr_tok] :=
    List.getElem?_eq_getElem hlt
  have hkind : currentKind p = some (p.toklist[p.curr_tok]).kind := by
    simp [currentKind, hcur]
  have hadv : (p.toklist[p.curr_tok]).kind ≠ TOK_EOF →
      ({ p with curr_tok := p.curr_tok + 1 } : Parser).curr_tok
        < ({ p with curr_tok := p.curr_tok + 1 } : Parser).toklist.length :=
    fun hk => succ_lt_length_of_kind_ne_EOF p.toklist p.curr_tok hEOF hlt hk
  cases c with
  | peek =>
    exact Or.inl ⟨p, by simp [Call.run, parser_peek_token, hcur, Outcome.void], hlt, rfl⟩
  | advance =>
    have hk : (p.toklist[p.curr_tok]).kind ≠ TOK_EOF := by
      simpa [Call.consumes, hkind] using hd
    exact Or.inl ⟨{ p with curr_tok := p.curr_tok + 1 },
      by simp [Call.run, parser_chomp, parser_peek_token, hcur, Outcome.void], hadv hk, rfl⟩
  | advance_if k =>
    by_cases hm : (p.toklist[p.curr_tok]).kind = k
    · have hk : (p.toklist[p.curr_tok]).kind ≠ TOK_EOF := by
        simpa [Call.consumes, hkind, hm] using hd
      exact Or.inl ⟨{ p with curr_tok := p.curr_tok + 1 },
        by simp [Call.run, parser_chomp_if, parser_chomp, parser_peek_token, hcur, hm,
          Outcome.void], hadv hk, rfl⟩
    · exact Or.inl ⟨p, by simp [Call.run, parser_chomp_if, hcur, hm, Outcome.void], hlt, rfl⟩
  | expect k =>
    by_cases hm : (p.toklist[p.curr_tok]).kind = k
    · have hk : (p.toklist[p.curr_tok]).kind ≠ TOK_EOF := by
        simpa [Call.consumes, hkind, hm] using hd
      exact Or.inl ⟨{ p with curr_tok := p.curr_tok + 1 },
        by simp [Call.run, parser_expect_token, parser_chomp, parser_peek_token, hcur, hm,
          Outcome.void], hadv hk, rfl⟩
    · exact Or.inr ⟨Error.ErrorUnexpectedToken,
        "Expected `" ++ f k ++ "`; got `" ++ f (p.toklist[p.curr_tok]).kind ++ "`",
        by simp [Call.run, parser_expect_token, hcur, hm, Outcome.void]⟩

/-- A disciplined run stays disciplined when it is cut short. -/
theorem disciplined_of_append (f : TokenKind → String) (cs ds : List Call) :
    ∀ p : Parser, disciplined f (cs ++ ds) p = true → disciplined f cs p = true := by
  induction cs with
  | nil => intro p _; rfl
  | cons c cs ih =>
    intro p h
    simp only [List.cons_append, disciplined, Bool.and_eq_true] at h ⊢
    refine ⟨h.1, ?_⟩
    have h2 := h.2
    cases hrun : c.run f p with
    | ok v q =>
      rw [hrun] at h2
      exact ih q h2
    | panic err msg q => rfl
    | undefined => rfl

/-- A disciplined run from a state whose cursor indexes a token of a list ending in `TOK_EOF`
leaves a state whose cursor still indexes a token of that list. -/
theorem runCalls_in_range (f : TokenKind → String) (cs : List Call) :
    ∀ p : Parser, endsInEOF p.toklist → p.curr_tok < p.toklist.length →
      disciplined f cs p = true →
      ∃ q, (runCalls f cs p).state = some q ∧ q.curr_tok < q.toklist.length ∧
        q.toklist = p.toklist := by
  induction cs with
  | nil => intro p _ hlt _; exact ⟨p, rfl, hlt, rfl⟩
  | cons c cs ih =>
    intro p hEOF hlt hd
    simp only [disciplined, Bool.and_eq_true, Bool.not_eq_true'] at hd
    rcases Call.run_in_range f c p hEOF hlt hd.1 with ⟨q, hq, hqlt, hql⟩ | ⟨err, msg, hpanic⟩
    · have hd2 := hd.2
      rw [hq] at hd2
      obtain ⟨r, hr, hrlt, hrl⟩ := ih q (hql ▸ hEOF) hqlt hd2
      exact ⟨r, by simp only [runCalls, hq]; exact hr, hrlt, hrl.trans hql⟩
    · exact ⟨p, by simp only [runCalls, hpanic]; rfl, hlt, rfl⟩

/-- C29: for every non-empty token list whose last token is `TOK_EOF` and every run of peek,
advance, advance_if and expect calls started from `parser_init` in which no call consumes a
token while the current kind is `TOK_EOF`, every state along the run has its cursor
strictly below the length of the list, and `parser_peek_token` reads a token there.  That
`TOK_EOF` occurs only once is not needed. -/
theorem C29_cursor_stays_in_range (f : TokenKind → String) (lexer : Lexer)
    (cs ds : List Call) (hne : lexer.toklist ≠ []) (hEOF : endsInEOF lexer.toklist)
    (hd : disciplined f (cs ++ ds) (parser_init lexer) = true) :
    ∃ q, (runCalls f cs (parser_init lexer)).state = some q ∧
      q.curr_tok < q.toklist.length ∧ q.toklist = lexer.toklist ∧
      ∃ k, parser_peek_token q = .ok k q := by
  have hlt : (parser_init lexer).curr_tok < (parser_init lexer).toklist.length := by
    simpa [parser_init] using List.length_pos.mpr hne
  obtain ⟨q, hq, hqlt, hql⟩ := runCalls_in_range f cs (parser_init lexer) hEOF hlt
    (disciplined_of_append f cs ds _ hd)
  exact ⟨q, hq, hqlt, hql, (q.toklist[q.curr_tok]).kind,
    by simp [parser_peek_token, List.getElem?_eq_getElem hqlt]⟩

/-- C29 at the tokens `( TOK_EOF`: after a peek, an advance over the parenthesis and a failed
advance_if the cursor is on `TOK_EOF`, inside the list. -/
theorem C29_cursor_stays_in_range_witness :
    ∃ q, (runCalls token_to_buff [Call.peek, Call.advance, Call.advance_if RPAREN]
        (parser_init { toklist := [tokenOfKind LPAREN, tokenOfKind TOK_EOF] })).state = some q ∧
      q.curr_tok < q.toklist.length ∧
      q.toklist = [tokenOfKind LPAREN, tokenOfKind TOK_EOF] ∧
      ∃ k, parser_peek_token q = .ok k q :=
  C29_cursor_stays_in_range token_to_buff
    { toklist := [tokenOfKind LPAREN, tokenOfKind TOK_EOF] }
    [Call.peek, Call.advance, Call.advance_if RPAREN] [Call.peek] (by decide)
    (by unfold endsInEOF; decide) (by decide)

/-! ## Token objects -/

/-- C31: the default-constructed token has kind `TOK_NULL`, so `isNULL` holds of its kind;
its offset, byte length, line, column and UTF-8 length are 0 and its file name and value
are empty. -/
theorem C31_default_token_is_null :
    Token.new.type = TOK_NULL ∧ isNULL Token.new.type = true ∧ Token.new.offset = 0 ∧
      Token.new.tok_bytes = 0 ∧ Token.new.line_no = 0 ∧ Token.new.col_no = 0 ∧
      Token.new.tok_length = 0 ∧ Token.new.fname = "" ∧ Token.new.value = "" := by
  decide

/-- C32, evaluated at the failing input: cloning the token of kind `COMMA` into the token
made by the default constructor is not a completed call.  Control reaches the end of the
body of `Token::clone` without a `return` statement, so there is no state after
`a.clone(b)` in which the eight members could be compared or a second clone be made. -/
theorem C32_clone_does_not_return :
    (¬ ∃ value self other,
        Token.new.clone (tokenOfKind COMMA) = MemberOutcome.returned value self other) ∧
      ∃ self other, Token.new.clone (tokenOfKind COMMA) = MemberOutcome.flowsOffEnd self other := by
  constructor
  · rintro ⟨value, self, other, h⟩
    simp [Token.clone] at h
  · exact ⟨_, _, rfl⟩

/-- No call of `Token::clone` completes, whatever the receiver and the source. -/
theorem clone_never_returns (a b : Token) (value self other : Token) :
    a.clone b ≠ MemberOutcome.returned value self other := by
  simp [Token.clone]

/-! ## Parser start state -/

/-- C33: for every lexer with a non-empty token list, the parser made by `parser_init` has
the lexer's token list as its token sequence, the length of that list as its token count
and its cursor at index 0, and `parser_peek_token` on it returns the kind of the first
token and leaves the parser as it is. -/
theorem C33_parser_init (lexer : Lexer) (hne : lexer.toklist ≠ []) :
    (parser_init lexer).toklist = lexer.toklist ∧
      (parser_init lexer).tok_count = lexer.toklist.length ∧
      (parser_init lexer).curr_tok = 0 ∧ (parser_init lexer).lexer = lexer ∧
      ∃ t, lexer.toklist.head? = some t ∧
        parser_peek_token (parser_init lexer) = .ok t.kind (parser_init lexer) := by
  refine ⟨rfl, rfl, rfl, rfl, ?_⟩
  cases hl : lexer.toklist with
  | nil => exact absurd hl hne
  | cons t ts => exact ⟨t, rfl, by simp [parser_peek_token, parser_init, hl]⟩

/-- C33 at the lexer whose token list is `( TOK_EOF`. -/
theorem C33_parser_init_witness :
    (parser_init { toklist := [tokenOfKind LPAREN, tokenOfKind TOK_EOF] }).curr_tok = 0 ∧
      parser_peek_token (parser_init { toklist := [tokenOfKind LPAREN, tokenOfKind TOK_EOF] })
        = .ok LPAREN (parser_init { toklist := [tokenOfKind LPAREN, tokenOfKind TOK_EOF] }) := by
  have h := C33_parser_init { toklist := [tokenOfKind LPAREN, tokenOfKind TOK_EOF] }
    (by decide)
  obtain ⟨-, -, hcur, -, t, ht, hpeek⟩ := h
  have ht' : t = tokenOfKind LPAREN := by
    simpa using ht.symm
  subst ht'
  exact ⟨hcur, hpeek⟩

/-! ## Statement starts -/

/-- C34: each of `isJumpStatement`, `isLoopStatement`, `isFlowStatement` and
`isMatchStatement` implies `isKeyword`; no kind satisfies two of `isJumpStatement`,
`isLoopStatement`, `isFlowStatement`; and a kind satisfies both `isFlowStatement` and
`isMatchStatement` exactly when it is `MATCH`. -/
theorem C34_statement_starts (k : TokenType) :
    ((isJumpStatement k = true → isKeyword k = true) ∧
      (isLoopStatement k = true → isKeyword k = true) ∧
      (isFlowStatement k = true → isKeyword k = true) ∧
      (isMatchStatement k = true → isKeyword k = true)) ∧
    (¬ (isJumpStatement k = true ∧ isLoopStatement k = true) ∧
      ¬ (isJumpStatement k = true ∧ isFlowStatement k = true) ∧
      ¬ (isLoopStatement k = true ∧ isFlowStatement k = true)) ∧
    ((isFlowStatement k = true ∧ isMatchStatement k = true) ↔ k = MATCH) := by
  cases k <;> decide

/-- C35: a kind satisfies both `isDeclStatement` and `isPrimaryExpressionStatement` exactly
when it is `FUNC`. -/
theorem C35_decl_primary_overlap (k : TokenType) :
    (isDeclStatement k = true ∧ isPrimaryExpressionStatement k = true) ↔ k = FUNC := by
  cases k <;> decide

end Hazel
